import Mathlib

/-! OVAL scanner (package `oval`): embedding and properties

Shallow embedding of `pkg/oval/scanner.go`, `pkg/oval/types.go` and
`pkg/oval/tests.go`.

Modelling conventions

* A Go `string` is a Lean `String` (the scanner's strings come out of the XML
  decoder, which only produces valid UTF-8; on valid UTF-8 a byte-level
  substring is the same thing as a substring of code points).
* The operating-system probes (`registry.OpenKey`, `Key.GetStringValue`,
  `os.Stat`), the XML decoder (`xml.Unmarshal`), the clock (`time.Now`) and the
  Unicode upper-case table are fields of a `Host` record.
* What the decoder makes of a criteria element is written out separately
  (`decodeCriteria`), from the struct tags of `Criteria` and `Criterion`.
* A Go `map[string]interface{}` is an association list in insertion order
  with at most one entry per key; the nil map is the empty list.
* A function returning `(TestResult, error)` returns a pair whose second
  component is `none` for a nil error.
-/

namespace Oval

/-! ## Package `strings` -/

/-- Go `strings.HasPrefix`. -/
def HasPrefix (s pre : String) : Bool :=
  pre.data.isPrefixOf s.data

/-- Go `strings.HasSuffix`. -/
def HasSuffix (s suf : String) : Bool :=
  suf.data.isSuffixOf s.data

/-- Go `strings.TrimPrefix`: `s` without the leading `pre`, or `s` itself. -/
def TrimPrefix (s pre : String) : String :=
  if HasPrefix s pre then ⟨s.data.drop pre.data.length⟩ else s

/-- Go `strings.TrimSuffix`: `s` without the trailing `suf`, or `s` itself. -/
def TrimSuffix (s suf : String) : String :=
  if HasSuffix s suf then ⟨s.data.take (s.data.length - suf.data.length)⟩ else s

/-- Go `strings.Contains`: some position of `s` starts with `substr`. -/
def Contains (s substr : String) : Bool :=
  s.data.tails.any (fun t => substr.data.isPrefixOf t)

/-- ASCII branch of Go `strings.ToUpper`. -/
def asciiUpper (c : Char) : Char :=
  if 'a' ≤ c ∧ c ≤ 'z' then Char.ofNat (c.toNat - 32) else c

/-- Go `strings.ToUpper`: an ASCII-only string has its letters `a`..`z` mapped
to `A`..`Z`; any other string is mapped rune by rune through
`unicode.ToUpper`, passed in as `unicodeToUpper`. -/
def ToUpper (unicodeToUpper : Char → Char) (s : String) : String :=
  if s.data.all (fun c => decide (c.toNat < 128)) then ⟨s.data.map asciiUpper⟩
  else ⟨s.data.map unicodeToUpper⟩

/-! ## `compareValues` -/

/-- Source `compareValues` (scanner.go). -/
def compareValues (actual expected operation : String) : Bool :=
  if operation = "equals" then
    decide (actual = expected)
  else if operation = "contains" then
    Contains actual expected
  else if operation = "pattern_match" then
    Contains actual (TrimSuffix (TrimPrefix expected ".*") ".*")
  else
    false

/-! ## Data model (types.go, tests.go) -/

/-- Go `xml.Name`. -/
structure Name where
  Space : String
  Local : String
  deriving DecidableEq, Repr

/-- Source `Metadata`. -/
structure Metadata where
  Title : String
  Description : String
  deriving DecidableEq, Repr

/-- Source `Criterion`: a reference to a test, nothing else. -/
structure Criterion where
  TestRef : String
  deriving DecidableEq, Repr

/-- Source `Criteria`: the list of criterion children, nothing else. -/
structure Criteria where
  Criterion : List Criterion
  deriving DecidableEq, Repr

/-- Source `Definition`. -/
structure Definition where
  ID : String
  Version : String
  Class : String
  Metadata : Metadata
  Criteria : Criteria
  deriving DecidableEq, Repr

/-- Source `OVALDefinition`. The fields `Tests`, `Objects` and `States` are
slices of `interface{}` which no function of the package inspects; each entry
is kept as a unit value. -/
structure OVALDefinition where
  XMLName : Name
  Definitions : List Definition
  Tests : List Unit
  Objects : List Unit
  States : List Unit
  deriving DecidableEq, Repr

/-- Source `RegistryTest`. -/
structure RegistryTest where
  ID : String
  Hive : String
  Key : String
  ValueName : String
  ExpectedValue : String
  Operation : String
  deriving DecidableEq, Repr

/-- Source `FileTest`. -/
structure FileTest where
  ID : String
  FilePath : String
  TestType : String
  deriving DecidableEq, Repr

/-- A value stored in `TestResult.Details` (`interface{}`): the scanner stores
strings and one `int64`. -/
inductive DetailValue where
  | str (s : String)
  | int (n : Int)
  deriving DecidableEq, Repr

/-- A Go `map[string]interface{}`. -/
abbrev DetailMap := List (String × DetailValue)

/-- Map assignment `m[k] = v`. -/
def DetailMap.set (m : DetailMap) (k : String) (v : DetailValue) : DetailMap :=
  if m.any (fun p => p.1 == k) then m.map (fun p => if p.1 == k then (k, v) else p)
  else m ++ [(k, v)]

/-- Map lookup `m[k]`. -/
def DetailMap.get (m : DetailMap) (k : String) : Option DetailValue :=
  (m.find? (fun p => p.1 == k)).map Prod.snd

/-- Source `TestResult`. -/
structure TestResult where
  TestID : String
  Status : String
  Message : String
  Timestamp : String
  Details : DetailMap
  deriving DecidableEq, Repr

/-! ## The host: registry, file system, XML decoder, clock -/

/-- An error value returned by a probe. -/
inductive Errno where
  | ErrNotExist
  | ErrAccessDenied
  | ErrUnexpectedType
  | ErrInputOutput
  deriving DecidableEq, Repr

/-- The text of an error (`%v`). -/
def Errno.Error : Errno → String
  | .ErrNotExist => "The system cannot find the file specified."
  | .ErrAccessDenied => "Access is denied."
  | .ErrUnexpectedType => "unexpected key value type"
  | .ErrInputOutput => "input/output error"

/-- A registry handle, `registry.Key`. -/
abbrev Key := Nat

/-- Go `registry.CLASSES_ROOT`. -/
def CLASSES_ROOT : Key := 0x80000000

/-- Go `registry.CURRENT_USER`. -/
def CURRENT_USER : Key := 0x80000001

/-- Go `registry.LOCAL_MACHINE`. -/
def LOCAL_MACHINE : Key := 0x80000002

/-- Go `registry.USERS`. -/
def USERS : Key := 0x80000003

/-- Go `registry.QUERY_VALUE`. -/
def QUERY_VALUE : Nat := 1

/-- What `os.Stat` reports: `Size()`, `Mode()` (a 32-bit `fs.FileMode`) and
the text of `ModTime().String()`. -/
structure FileInfo where
  Size : Int
  Mode : Nat
  ModTime : String
  deriving DecidableEq, Repr

/-- The environment a scan runs in. -/
structure Host where
  /-- Go `xml.Unmarshal` into an `OVALDefinition`. -/
  Unmarshal : List Nat → Except String OVALDefinition
  /-- Go `registry.OpenKey(k, path, access)`. -/
  OpenKey : Key → String → Nat → Except Errno Key
  /-- Go `Key.GetStringValue(name)`. -/
  GetStringValue : Key → String → Except Errno String
  /-- Go `os.Stat(path)`. -/
  Stat : String → Except Errno FileInfo
  /-- Go `time.Now().Format(time.RFC3339)` at the n-th reading of the clock. -/
  Now : Nat → String
  /-- Go `unicode.ToUpper`. -/
  UnicodeToUpper : Char → Char

/-! ## Executors (scanner.go) -/

/-- Source `registryStringToHive`. -/
def registryStringToHive (h : Host) (hive : String) : Key :=
  let u := ToUpper h.UnicodeToUpper hive
  if u = "HKEY_LOCAL_MACHINE" then LOCAL_MACHINE
  else if u = "HKEY_CURRENT_USER" then CURRENT_USER
  else if u = "HKEY_CLASSES_ROOT" then CLASSES_ROOT
  else LOCAL_MACHINE

/-- Source `executeRegistryTest`. The context argument is not used by the
source; the deferred `key.Close()` has no effect on the result. -/
def executeRegistryTest (h : Host) (test : RegistryTest) : TestResult × Option Errno :=
  let result : TestResult :=
    { TestID := test.ID, Status := "", Message := "", Timestamp := "", Details := [] }
  let hive := registryStringToHive h test.Hive
  match h.OpenKey hive test.Key QUERY_VALUE with
  | .error _ =>
    ({ result with
        Status := "fail"
        Message := "Registry key not found: " ++ test.Hive ++ "\\" ++ test.Key }, none)
  | .ok key =>
    match h.GetStringValue key test.ValueName with
    | .error _ =>
      ({ result with
          Status := "fail"
          Message := "Registry value not found: " ++ test.ValueName }, none)
    | .ok value =>
      let matched := compareValues value test.ExpectedValue test.Operation
      let result : TestResult :=
        if matched then
          { result with
              Status := "pass"
              Message := "Registry check passed: " ++ test.ValueName ++ " = " ++ value }
        else
          { result with
              Status := "fail"
              Message := "Expected \x27" ++ test.ExpectedValue ++ "\x27, got \x27" ++ value ++ "\x27" }
      let result := { result with Details := result.Details.set "hive" (.str test.Hive) }
      let result := { result with Details := result.Details.set "key" (.str test.Key) }
      let result := { result with Details := result.Details.set "value_name" (.str test.ValueName) }
      let result := { result with Details := result.Details.set "expected" (.str test.ExpectedValue) }
      let result := { result with Details := result.Details.set "actual" (.str value) }
      (result, none)

/-- Go `fmt.Sprintf("%d", n)` for an `int64`. -/
def fmtDecimal (n : Int) : String :=
  toString n

/-- Go `fmt.Sprintf("%o", m)` for an unsigned value. -/
def fmtOctal (m : Nat) : String :=
  ⟨Nat.toDigits 8 m⟩

/-- Go `FileMode.Perm`: the permission bits, `m & ModePerm` with `ModePerm = 0777`. -/
def Perm (m : Nat) : Nat :=
  m &&& 0o777

/-- Source `executeFileTest`. The context argument is not used by the source. -/
def executeFileTest (h : Host) (test : FileTest) : TestResult × Option Errno :=
  let result : TestResult :=
    { TestID := test.ID, Status := "", Message := "", Timestamp := "", Details := [] }
  let result := { result with Details := result.Details.set "file_path" (.str test.FilePath) }
  match h.Stat test.FilePath with
  | .error _ =>
    ({ result with
        Status := "fail"
        Message := "File not found: " ++ test.FilePath }, none)
  | .ok info =>
    if test.TestType = "exists" then
      let result := { result with
        Status := "pass"
        Message := "File exists: " ++ test.FilePath ++ " (" ++ fmtDecimal info.Size ++ " bytes)" }
      let result := { result with Details := result.Details.set "size" (.int info.Size) }
      let result := { result with Details := result.Details.set "modified" (.str info.ModTime) }
      (result, none)
    else if test.TestType = "writable" then
      let result : TestResult :=
        if info.Mode &&& 0o200 ≠ 0 then
          { result with
              Status := "pass"
              Message := "File is writable: " ++ test.FilePath }
        else
          { result with
              Status := "fail"
              Message := "File is not writable: " ++ test.FilePath }
      let result :=
        { result with Details := result.Details.set "permissions" (.str (fmtOctal (Perm info.Mode))) }
      (result, none)
    else
      ({ result with
          Status := "unknown"
          Message := "Unknown file test type: " ++ test.TestType }, none)

/-! ## The scan (scanner.go) -/

/-- Source `extractRegistryTests`: the body declares an empty slice and returns it. -/
def extractRegistryTests (_def : OVALDefinition) : List RegistryTest :=
  let tests : List RegistryTest := []
  tests

/-- Source `extractFileTests`: the body declares an empty slice and returns it. -/
def extractFileTests (_def : OVALDefinition) : List FileTest :=
  let tests : List FileTest := []
  tests

/-- One iteration of the loops of `ScanFromXML`: run the executor, replace the
result by an `error` result when the executor returned an error, stamp it with
the current time and append it. -/
def scanStep {τ : Type} (h : Host) (exec : Host → τ → TestResult × Option Errno)
    (testID : τ → String) (results : List TestResult) (test : τ) : List TestResult :=
  let (result, err) := exec h test
  let result : TestResult :=
    match err with
    | some e =>
      { TestID := testID test, Status := "error", Message := "Error: " ++ e.Error,
        Timestamp := "", Details := [] }
    | none => result
  let result := { result with Timestamp := h.Now results.length }
  results ++ [result]

/-- Source `ScanFromXML`. -/
def ScanFromXML (h : Host) (xmlData : List Nat) : Except String (List TestResult) :=
  match h.Unmarshal xmlData with
  | .error err => .error ("error parsing XML: " ++ err)
  | .ok d =>
    let results : List TestResult := []
    let results :=
      (extractRegistryTests d).foldl (scanStep h executeRegistryTest RegistryTest.ID) results
    let results :=
      (extractFileTests d).foldl (scanStep h executeFileTest FileTest.ID) results
    .ok results

/-! ## Decoding of criteria (struct tags of types.go) -/

/-- An XML element as the decoder walks it: its local name, its attributes
(local name and value, in document order) and its child elements. Character
data is left out: `Criteria` and `Criterion` have no field for it. -/
inductive Element where
  | node (name : String) (attrs : List (String × String)) (children : List Element)

/-- The local name of an element. -/
def Element.name : Element → String
  | .node n _ _ => n

/-- The attributes of an element. -/
def Element.attrs : Element → List (String × String)
  | .node _ as _ => as

/-- The child elements of an element. -/
def Element.children : Element → List Element
  | .node _ _ cs => cs

/-- A string field tagged `xml:"name,attr"`: starting from the zero value, every
attribute of that local name, in document order, is assigned to the field;
attributes of any other name leave it alone. -/
def attrField (name : String) (attrs : List (String × String)) : String :=
  attrs.foldl (fun field a => if a.1 = name then a.2 else field) ""

/-- Decoding into source `Criterion`: its one field is `TestRef`, tagged
`xml:"test_ref,attr"`; every other attribute and every child is skipped. -/
def decodeCriterion (e : Element) : Criterion :=
  { TestRef := attrField "test_ref" e.attrs }

/-- Decoding into source `Criteria`: its one field is `Criterion`, a slice
tagged `xml:"criterion"`, which gains one entry per child element of that
name; the attributes of the element and its other children are skipped. -/
def decodeCriteria (e : Element) : Criteria :=
  { Criterion := (e.children.filter (fun c => c.name == "criterion")).map decodeCriterion }

/-! ## Sample documents and a sample host -/

/-- Bytes of a text. -/
def bytesOf (s : String) : List Nat :=
  s.data.map Char.toNat

/-- The end-to-end document: one definition whose criteria reference a
registry test (value `Enabled` under `HKEY_LOCAL_MACHINE\Software\Test`
expected to equal `1`) and a file test (`C:\marker.txt` exists). -/
def e2eXml : List Nat :=
  bytesOf ("<oval_definitions><definitions>"
    ++ "<definition id=\"oval:def:1\" version=\"1\" class=\"compliance\">"
    ++ "<metadata><title>Marker</title><description>Marker is set</description></metadata>"
    ++ "<criteria operator=\"AND\">"
    ++ "<criterion test_ref=\"oval:tst:1\" negate=\"false\"/>"
    ++ "<criterion test_ref=\"oval:tst:2\" negate=\"false\"/>"
    ++ "</criteria></definition></definitions>"
    ++ "<tests><registry_test id=\"oval:tst:1\"><object object_ref=\"oval:obj:1\"/>"
    ++ "<state state_ref=\"oval:ste:1\"/></registry_test>"
    ++ "<file_test id=\"oval:tst:2\" check=\"exists\"><object object_ref=\"oval:obj:2\"/></file_test></tests>"
    ++ "<objects><registry_object id=\"oval:obj:1\"><hive>HKEY_LOCAL_MACHINE</hive>"
    ++ "<key>Software\\Test</key><name>Enabled</name></registry_object>"
    ++ "<file_object id=\"oval:obj:2\"><path>C:\\marker.txt</path></file_object></objects>"
    ++ "<states><registry_state id=\"oval:ste:1\" operation=\"equals\"><value>1</value>"
    ++ "</registry_state></states></oval_definitions>")

/-- The value `xml.Unmarshal` fills in for `e2eXml`: the attributes and
elements without a field in the Go structs are dropped. -/
def e2eDocument : OVALDefinition :=
  { XMLName := { Space := "", Local := "oval_definitions" },
    Definitions :=
      [{ ID := "oval:def:1", Version := "1", Class := "compliance",
         Metadata := { Title := "Marker", Description := "Marker is set" },
         Criteria := { Criterion := [{ TestRef := "oval:tst:1" }, { TestRef := "oval:tst:2" }] } }],
    Tests := [()], Objects := [()], States := [()] }

/-- The registry test the end-to-end document describes. -/
def e2eRegistryTest : RegistryTest :=
  { ID := "oval:tst:1", Hive := "HKEY_LOCAL_MACHINE", Key := "Software\\Test",
    ValueName := "Enabled", ExpectedValue := "1", Operation := "equals" }

/-- The file test the end-to-end document describes. -/
def e2eFileTest : FileTest :=
  { ID := "oval:tst:2", FilePath := "C:\\marker.txt", TestType := "exists" }

/-- A registry test that fails on the sample host: it expects `0`, the host holds `1`. -/
def failingRegistryTest : RegistryTest :=
  { e2eRegistryTest with ID := "oval:tst:3", ExpectedValue := "0" }

/-- The handle the sample host hands out for `HKEY_LOCAL_MACHINE\Software\Test`. -/
def sampleHandle : Key := 0x1a4

/-- A host for the scenarios below. Registry: `HKEY_LOCAL_MACHINE\Software\Test`
holds the string value `Enabled = 1`; `HKEY_LOCAL_MACHINE\Software\Locked`
cannot be opened (access denied); no other key exists. File system:
`C:\marker.txt` is a 12-byte file of mode 0644, `C:\readonly.txt` one of mode
0444, `C:\broken.txt` cannot be statted (I/O error); no other file exists. -/
def sampleHost : Host :=
  { Unmarshal := fun b =>
      if b = e2eXml then .ok e2eDocument
      else .error "EOF"
    OpenKey := fun k path _ =>
      if k = LOCAL_MACHINE ∧ path = "Software\\Test" then .ok sampleHandle
      else if k = LOCAL_MACHINE ∧ path = "Software\\Locked" then .error .ErrAccessDenied
      else .error .ErrNotExist
    GetStringValue := fun k name =>
      if k = sampleHandle ∧ name = "Enabled" then .ok "1" else .error .ErrNotExist
    Stat := fun path =>
      if path = "C:\\marker.txt" then
        .ok { Size := 12, Mode := 0o644, ModTime := "2024-05-01 10:00:00 +0000 UTC" }
      else if path = "C:\\readonly.txt" then
        .ok { Size := 12, Mode := 0o444, ModTime := "2024-05-01 10:00:00 +0000 UTC" }
      else if path = "C:\\broken.txt" then .error .ErrInputOutput
      else .error .ErrNotExist
    Now := fun _ => "2024-05-01T10:00:00Z"
    UnicodeToUpper := Char.toUpper }

/-- A criteria root with the given operator over two criterion children,
neither negated: the first references test `oval:tst:1`, the second test
`oval:tst:3`. -/
def criteriaElement (operator : String) : Element :=
  .node "criteria" [("operator", operator), ("negate", "false")]
    [.node "criterion" [("test_ref", "oval:tst:1"), ("negate", "false")] [],
     .node "criterion" [("test_ref", "oval:tst:3"), ("negate", "false")] []]

/-- The results of the two tests on the sample host, by test id: test
`oval:tst:1` passes, test `oval:tst:3` fails. -/
def sampleResults (testID : String) : Option TestResult :=
  if testID = "oval:tst:1" then some (executeRegistryTest sampleHost e2eRegistryTest).1
  else if testID = "oval:tst:3" then some (executeRegistryTest sampleHost failingRegistryTest).1
  else none

/-! ## Lemmas on the string functions -/

theorem Contains_iff_substring (s t : String) : Contains s t = true ↔ t.data <:+: s.data := by
  simp only [Contains, List.any_eq_true, List.mem_tails, List.isPrefixOf_iff_prefix]
  rw [List.infix_iff_prefix_suffix]
  constructor
  · rintro ⟨x, hx, hp⟩
    exact ⟨x, hp, hx⟩
  · rintro ⟨x, hp, hx⟩
    exact ⟨x, hx, hp⟩

theorem Contains_iff_append (s t : String) :
    Contains s t = true ↔ ∃ pre post : String, s = pre ++ t ++ post := by
  rw [Contains_iff_substring]
  constructor
  · rintro ⟨a, b, hab⟩
    refine ⟨⟨a⟩, ⟨b⟩, ?_⟩
    apply String.ext
    simp [String.data_append, hab]
  · rintro ⟨pre, post, rfl⟩
    exact ⟨pre.data, post.data, by simp [String.data_append]⟩

theorem trim_dotStar (text : String) :
    TrimSuffix (TrimPrefix (".*" ++ text ++ ".*") ".*") ".*" = text := by
  have h1 : TrimPrefix (".*" ++ text ++ ".*") ".*" = text ++ ".*" := by
    apply String.ext
    simp [TrimPrefix, HasPrefix, String.data_append]
  rw [h1]
  apply String.ext
  simp [TrimSuffix, HasSuffix, String.data_append]

theorem compareValues_unrecognised (actual expected operation : String)
    (h1 : operation ≠ "equals") (h2 : operation ≠ "contains")
    (h3 : operation ≠ "pattern_match") :
    compareValues actual expected operation = false := by
  simp [compareValues, h1, h2, h3]

/-! ## Lemmas on the scan -/

theorem ScanFromXML_of_document (h : Host) (xml : List Nat) (d : OVALDefinition)
    (hd : h.Unmarshal xml = .ok d) : ScanFromXML h xml = .ok [] := by
  simp [ScanFromXML, hd, extractRegistryTests, extractFileTests]

/-! ## The comparator -/

/-- C3: with operation `equals`, `compareValues` is true exactly when actual
and expected are the same string; the two sample comparisons of the
specification come out true and false. -/
theorem compareValues_equals_iff :
    (∀ actual expected : String,
      compareValues actual expected "equals" = true ↔ actual = expected)
    ∧ compareValues "C:\\Test" "C:\\Test" "equals" = true
    ∧ compareValues "1.2.3" "9.9.9" "equals" = false := by
  refine ⟨?_, by decide, by decide⟩
  intro actual expected
  simp [compareValues]

/-- C4: with operation `contains`, `compareValues` is true exactly when
expected occurs as a contiguous substring of actual; `Pro` is found in
`Windows 10 Pro`, and the empty expected is found in every actual. -/
theorem compareValues_contains_iff :
    (∀ actual expected : String,
      compareValues actual expected "contains" = true ↔
        ∃ pre post : String, actual = pre ++ expected ++ post)
    ∧ compareValues "Windows 10 Pro" "Pro" "contains" = true
    ∧ (∀ actual : String, compareValues actual "" "contains" = true) := by
  have key : ∀ actual expected : String,
      compareValues actual expected "contains" = true ↔
        ∃ pre post : String, actual = pre ++ expected ++ post := by
    intro actual expected
    have hc : compareValues actual expected "contains" = Contains actual expected := by
      simp [compareValues]
    rw [hc, Contains_iff_append]
  refine ⟨key, by decide, ?_⟩
  intro actual
  rw [key]
  exact ⟨"", actual, by simp⟩

/-- C5, as stated, fails: `Pro` has no asterisk and occurs in `Windows 10 Pro`,
yet `pattern_match` against `*Pro*` is false (the asterisks are searched for
literally). -/
theorem pattern_match_star_counterexample :
    (¬ '*' ∈ "Pro".data)
    ∧ (∃ pre post : String, "Windows 10 Pro" = pre ++ "Pro" ++ post)
    ∧ compareValues "Windows 10 Pro" ("*" ++ "Pro" ++ "*") "pattern_match" = false := by
  refine ⟨by decide, ⟨"Windows 10 ", "", by decide⟩, by decide⟩

/-- C5, amended: the wildcard markers `pattern_match` strips are one leading
and one trailing `.*`; for every text and actual, matching actual against
`.*text.*` is true exactly when text occurs as a substring of actual. -/
theorem pattern_match_dotStar_iff (actual text : String) :
    compareValues actual (".*" ++ text ++ ".*") "pattern_match" = true ↔
      ∃ pre post : String, actual = pre ++ text ++ post := by
  have hc : compareValues actual (".*" ++ text ++ ".*") "pattern_match"
      = Contains actual (TrimSuffix (TrimPrefix (".*" ++ text ++ ".*") ".*") ".*") := by
    simp [compareValues]
  rw [hc, trim_dotStar, Contains_iff_append]

/-! ## The registry executor -/

theorem executeRegistryTest_of_open_error (h : Host) (t : RegistryTest) (e : Errno)
    (hopen : h.OpenKey (registryStringToHive h t.Hive) t.Key QUERY_VALUE = .error e) :
    executeRegistryTest h t =
      ({ TestID := t.ID, Status := "fail",
         Message := "Registry key not found: " ++ t.Hive ++ "\\" ++ t.Key,
         Timestamp := "", Details := [] }, none) := by
  unfold executeRegistryTest
  simp only [hopen]

theorem executeRegistryTest_of_read_error (h : Host) (t : RegistryTest) (key : Key) (e : Errno)
    (hopen : h.OpenKey (registryStringToHive h t.Hive) t.Key QUERY_VALUE = .ok key)
    (hread : h.GetStringValue key t.ValueName = .error e) :
    executeRegistryTest h t =
      ({ TestID := t.ID, Status := "fail",
         Message := "Registry value not found: " ++ t.ValueName,
         Timestamp := "", Details := [] }, none) := by
  unfold executeRegistryTest
  simp only [hopen, hread]

theorem executeRegistryTest_of_value (h : Host) (t : RegistryTest) (key : Key) (v : String)
    (hopen : h.OpenKey (registryStringToHive h t.Hive) t.Key QUERY_VALUE = .ok key)
    (hread : h.GetStringValue key t.ValueName = .ok v) :
    executeRegistryTest h t =
      ({ TestID := t.ID,
         Status := if compareValues v t.ExpectedValue t.Operation then "pass" else "fail",
         Message :=
           if compareValues v t.ExpectedValue t.Operation then
             "Registry check passed: " ++ t.ValueName ++ " = " ++ v
           else "Expected \x27" ++ t.ExpectedValue ++ "\x27, got \x27" ++ v ++ "\x27",
         Timestamp := "",
         Details := [("hive", .str t.Hive), ("key", .str t.Key),
           ("value_name", .str t.ValueName), ("expected", .str t.ExpectedValue),
           ("actual", .str v)] }, none) := by
  unfold executeRegistryTest
  simp only [hopen, hread]
  cases hc : compareValues v t.ExpectedValue t.Operation <;>
    simp [DetailMap.set]

/-- C6: when the key opens and the named value is read as the string `v`,
`executeRegistryTest` returns a nil error, status `pass` if
`compareValues v ExpectedValue Operation` is true and `fail` if it is false,
and a details map whose keys are exactly `hive`, `key`, `value_name`,
`expected` and `actual`, bound to the Hive, Key, ValueName and ExpectedValue of
the test and to `v`. -/
theorem executeRegistryTest_found (h : Host) (t : RegistryTest) (key : Key) (v : String)
    (hopen : h.OpenKey (registryStringToHive h t.Hive) t.Key QUERY_VALUE = .ok key)
    (hread : h.GetStringValue key t.ValueName = .ok v) :
    (executeRegistryTest h t).2 = none
    ∧ (executeRegistryTest h t).1.Status
        = (if compareValues v t.ExpectedValue t.Operation = true then "pass" else "fail")
    ∧ (∀ k : String, (executeRegistryTest h t).1.Details.get k =
        if k = "hive" then some (.str t.Hive)
        else if k = "key" then some (.str t.Key)
        else if k = "value_name" then some (.str t.ValueName)
        else if k = "expected" then some (.str t.ExpectedValue)
        else if k = "actual" then some (.str v)
        else none) := by
  rw [executeRegistryTest_of_value h t key v hopen hread]
  refine ⟨rfl, rfl, ?_⟩
  intro k
  simp only [DetailMap.get, List.find?]
  by_cases h1 : k = "hive"
  · subst h1; simp
  by_cases h2 : k = "key"
  · subst h2; simp
  by_cases h3 : k = "value_name"
  · subst h3; simp
  by_cases h4 : k = "expected"
  · subst h4; simp
  by_cases h5 : k = "actual"
  · subst h5; simp
  have e1 : ("hive" == k) = false := by simpa using fun e => h1 e.symm
  have e2 : ("key" == k) = false := by simpa using fun e => h2 e.symm
  have e3 : ("value_name" == k) = false := by simpa using fun e => h3 e.symm
  have e4 : ("expected" == k) = false := by simpa using fun e => h4 e.symm
  have e5 : ("actual" == k) = false := by simpa using fun e => h5 e.symm
  simp [h1, h2, h3, h4, h5, e1, e2, e3, e4, e5]

/-- C6 at the end-to-end registry test on the sample host (status `pass`) and
at the test expecting `0` (status `fail`). -/
theorem executeRegistryTest_found_witness :
    (sampleHost.OpenKey (registryStringToHive sampleHost e2eRegistryTest.Hive)
        e2eRegistryTest.Key QUERY_VALUE = .ok sampleHandle
      ∧ sampleHost.GetStringValue sampleHandle e2eRegistryTest.ValueName = .ok "1"
      ∧ (executeRegistryTest sampleHost e2eRegistryTest).2 = none
      ∧ (executeRegistryTest sampleHost e2eRegistryTest).1.Status = "pass"
      ∧ (∀ k : String, (executeRegistryTest sampleHost e2eRegistryTest).1.Details.get k =
          if k = "hive" then some (.str "HKEY_LOCAL_MACHINE")
          else if k = "key" then some (.str "Software\\Test")
          else if k = "value_name" then some (.str "Enabled")
          else if k = "expected" then some (.str "1")
          else if k = "actual" then some (.str "1")
          else none))
    ∧ (executeRegistryTest sampleHost failingRegistryTest).2 = none
    ∧ (executeRegistryTest sampleHost failingRegistryTest).1.Status = "fail" :=
  have hp := executeRegistryTest_found sampleHost e2eRegistryTest sampleHandle "1" rfl rfl
  have hf := executeRegistryTest_found sampleHost failingRegistryTest sampleHandle "1" rfl rfl
  ⟨⟨rfl, rfl, hp.1, hp.2.1, hp.2.2⟩, hf.1, hf.2.1⟩

/-! ## The file executor -/

theorem executeFileTest_exists (h : Host) (t : FileTest) (info : FileInfo)
    (hstat : h.Stat t.FilePath = .ok info) (ht : t.TestType = "exists") :
    executeFileTest h t =
      ({ TestID := t.ID, Status := "pass",
         Message := "File exists: " ++ t.FilePath ++ " (" ++ fmtDecimal info.Size ++ " bytes)",
         Timestamp := "",
         Details := [("file_path", .str t.FilePath), ("size", .int info.Size),
           ("modified", .str info.ModTime)] }, none) := by
  unfold executeFileTest
  simp [hstat, ht, DetailMap.set]

theorem executeFileTest_writable (h : Host) (t : FileTest) (info : FileInfo)
    (hstat : h.Stat t.FilePath = .ok info) (ht : t.TestType = "writable") :
    executeFileTest h t =
      ({ TestID := t.ID,
         Status := if info.Mode &&& 0o200 ≠ 0 then "pass" else "fail",
         Message :=
           if info.Mode &&& 0o200 ≠ 0 then "File is writable: " ++ t.FilePath
           else "File is not writable: " ++ t.FilePath,
         Timestamp := "",
         Details := [("file_path", .str t.FilePath),
           ("permissions", .str (fmtOctal (Perm info.Mode)))] }, none) := by
  unfold executeFileTest
  by_cases hm : info.Mode &&& 0o200 = 0 <;>
    simp [hstat, ht, hm, DetailMap.set]

theorem executeFileTest_other (h : Host) (t : FileTest) (info : FileInfo)
    (hstat : h.Stat t.FilePath = .ok info) (h1 : t.TestType ≠ "exists")
    (h2 : t.TestType ≠ "writable") :
    executeFileTest h t =
      ({ TestID := t.ID, Status := "unknown",
         Message := "Unknown file test type: " ++ t.TestType,
         Timestamp := "",
         Details := [("file_path", .str t.FilePath)] }, none) := by
  unfold executeFileTest
  simp [hstat, h1, h2, DetailMap.set]

/-- C7: when the path stats successfully with mode `m`, `executeFileTest`
returns a nil error and a status fixed by the sub-type: `exists` gives `pass`
with `size` and `modified` in the details; `writable` gives `pass` when
`m AND 0o200` is non-zero and `fail` when it is zero, with the octal
permission string in the details; any other sub-type gives `unknown`, which is
neither `error` nor `pass`. -/
theorem executeFileTest_present (h : Host) (t : FileTest) (info : FileInfo)
    (hstat : h.Stat t.FilePath = .ok info) :
    (executeFileTest h t).2 = none
    ∧ (t.TestType = "exists" →
        (executeFileTest h t).1.Status = "pass"
        ∧ (executeFileTest h t).1.Details.get "size" = some (.int info.Size)
        ∧ (executeFileTest h t).1.Details.get "modified" = some (.str info.ModTime))
    ∧ (t.TestType = "writable" →
        (info.Mode &&& 0o200 ≠ 0 → (executeFileTest h t).1.Status = "pass")
        ∧ (info.Mode &&& 0o200 = 0 → (executeFileTest h t).1.Status = "fail")
        ∧ (executeFileTest h t).1.Details.get "permissions"
            = some (.str (fmtOctal (Perm info.Mode))))
    ∧ (t.TestType ≠ "exists" → t.TestType ≠ "writable" →
        (executeFileTest h t).1.Status = "unknown"
        ∧ (executeFileTest h t).1.Status ≠ "error"
        ∧ (executeFileTest h t).1.Status ≠ "pass") := by
  refine ⟨?_, ?_, ?_, ?_⟩
  · by_cases h1 : t.TestType = "exists"
    · rw [executeFileTest_exists h t info hstat h1]
    · by_cases h2 : t.TestType = "writable"
      · rw [executeFileTest_writable h t info hstat h2]
      · rw [executeFileTest_other h t info hstat h1 h2]
  · intro h1
    rw [executeFileTest_exists h t info hstat h1]
    simp [DetailMap.get]
  · intro h2
    rw [executeFileTest_writable h t info hstat h2]
    refine ⟨?_, ?_, ?_⟩
    · intro hm; simp [hm]
    · intro hm; simp [hm]
    · simp [DetailMap.get]
  · intro h1 h2
    rw [executeFileTest_other h t info hstat h1 h2]
    simp

/-- C7 on the sample host: `exists` on the marker file is `pass` with its size
recorded, `writable` on the read-only file is `fail` with permission string
`444`, `writable` on the marker file is `pass`, and the sub-type `readable` is
`unknown`. -/
theorem executeFileTest_present_witness :
    sampleHost.Stat "C:\\marker.txt"
        = .ok { Size := 12, Mode := 0o644, ModTime := "2024-05-01 10:00:00 +0000 UTC" }
    ∧ sampleHost.Stat "C:\\readonly.txt"
        = .ok { Size := 12, Mode := 0o444, ModTime := "2024-05-01 10:00:00 +0000 UTC" }
    ∧ (executeFileTest sampleHost e2eFileTest).2 = none
    ∧ (executeFileTest sampleHost e2eFileTest).1.Status = "pass"
    ∧ (executeFileTest sampleHost e2eFileTest).1.Details.get "size" = some (.int 12)
    ∧ (executeFileTest sampleHost
        { ID := "oval:tst:4", FilePath := "C:\\readonly.txt", TestType := "writable" }).1.Status
        = "fail"
    ∧ (executeFileTest sampleHost
        { ID := "oval:tst:4", FilePath := "C:\\readonly.txt", TestType := "writable" }
        ).1.Details.get "permissions" = some (.str "444")
    ∧ (executeFileTest sampleHost { e2eFileTest with TestType := "writable" }).1.Status = "pass"
    ∧ (executeFileTest sampleHost { e2eFileTest with TestType := "readable" }).1.Status
        = "unknown" :=
  have he := executeFileTest_present sampleHost e2eFileTest
    { Size := 12, Mode := 0o644, ModTime := "2024-05-01 10:00:00 +0000 UTC" } rfl
  have hr := (executeFileTest_present sampleHost
    { ID := "oval:tst:4", FilePath := "C:\\readonly.txt", TestType := "writable" }
    { Size := 12, Mode := 0o444, ModTime := "2024-05-01 10:00:00 +0000 UTC" }
    rfl).2.2.1 rfl
  have hw := (executeFileTest_present sampleHost { e2eFileTest with TestType := "writable" }
    { Size := 12, Mode := 0o644, ModTime := "2024-05-01 10:00:00 +0000 UTC" }
    rfl).2.2.1 rfl
  have hu := (executeFileTest_present sampleHost { e2eFileTest with TestType := "readable" }
    { Size := 12, Mode := 0o644, ModTime := "2024-05-01 10:00:00 +0000 UTC" }
    rfl).2.2.2 (by decide) (by decide)
  ⟨rfl, rfl, he.1, (he.2.1 rfl).1, (he.2.1 rfl).2.1, hr.2.1 (by decide), hr.2.2,
    hw.1 (by decide), hu.1⟩

/-! ## Probe failures, unrecognised operations, unrecognised hives -/

/-- C8: on the sample host the key `HKEY_LOCAL_MACHINE\Software\Locked` fails
to open with access denied and `C:\broken.txt` fails to stat with an I/O
error; both executors answer status `fail` with a nil error, so the scan loop
never builds an `error` result for them. -/
theorem probe_failure_reported_as_fail :
    sampleHost.OpenKey LOCAL_MACHINE "Software\\Locked" QUERY_VALUE = .error .ErrAccessDenied
    ∧ executeRegistryTest sampleHost { e2eRegistryTest with Key := "Software\\Locked" }
        = ({ TestID := "oval:tst:1", Status := "fail",
             Message := "Registry key not found: HKEY_LOCAL_MACHINE\\Software\\Locked",
             Timestamp := "", Details := [] }, none)
    ∧ sampleHost.Stat "C:\\broken.txt" = .error .ErrInputOutput
    ∧ executeFileTest sampleHost { e2eFileTest with FilePath := "C:\\broken.txt" }
        = ({ TestID := "oval:tst:2", Status := "fail",
             Message := "File not found: C:\\broken.txt",
             Timestamp := "", Details := [("file_path", .str "C:\\broken.txt")] }, none)
    ∧ scanStep sampleHost executeRegistryTest RegistryTest.ID []
          { e2eRegistryTest with Key := "Software\\Locked" }
        = [{ TestID := "oval:tst:1", Status := "fail",
             Message := "Registry key not found: HKEY_LOCAL_MACHINE\\Software\\Locked",
             Timestamp := "2024-05-01T10:00:00Z", Details := [] }] := by
  refine ⟨rfl, ?_, rfl, ?_, ?_⟩ <;> decide

/-- C9, as stated, fails: with the operation `greater than`, which is none of
the three recognised ones, and the key and value found, the registry executor
reports `fail`. -/
theorem unrecognised_operation_counterexample :
    sampleHost.OpenKey (registryStringToHive sampleHost e2eRegistryTest.Hive)
        e2eRegistryTest.Key QUERY_VALUE = .ok sampleHandle
    ∧ sampleHost.GetStringValue sampleHandle e2eRegistryTest.ValueName = .ok "1"
    ∧ ¬ ("greater than" = "equals" ∨ "greater than" = "contains"
          ∨ "greater than" = "pattern_match")
    ∧ (executeRegistryTest sampleHost
        { e2eRegistryTest with Operation := "greater than" }).1.Status = "fail" := by
  refine ⟨rfl, rfl, by decide, by decide⟩

/-- C9, amended: for every operation other than `equals`, `contains` and
`pattern_match`, `compareValues` is false for all actual and expected, and a
registry test with such an operation whose key and value are found is reported
with status `fail`. -/
theorem unrecognised_operation_fails (h : Host) (t : RegistryTest) (key : Key) (v : String)
    (h1 : t.Operation ≠ "equals") (h2 : t.Operation ≠ "contains")
    (h3 : t.Operation ≠ "pattern_match")
    (hopen : h.OpenKey (registryStringToHive h t.Hive) t.Key QUERY_VALUE = .ok key)
    (hread : h.GetStringValue key t.ValueName = .ok v) :
    (∀ actual expected : String, compareValues actual expected t.Operation = false)
    ∧ (executeRegistryTest h t).2 = none
    ∧ (executeRegistryTest h t).1.Status = "fail" := by
  have hc := fun a e => compareValues_unrecognised a e t.Operation h1 h2 h3
  rw [executeRegistryTest_of_value h t key v hopen hread]
  exact ⟨hc, rfl, by simp [hc]⟩

/-- C9 amended, at operation `greater than` on the sample host. -/
theorem unrecognised_operation_fails_witness :
    (∀ actual expected : String, compareValues actual expected "greater than" = false)
    ∧ (executeRegistryTest sampleHost
        { e2eRegistryTest with Operation := "greater than" }).2 = none
    ∧ (executeRegistryTest sampleHost
        { e2eRegistryTest with Operation := "greater than" }).1.Status = "fail" :=
  unrecognised_operation_fails sampleHost { e2eRegistryTest with Operation := "greater than" }
    sampleHandle "1" (by decide) (by decide) (by decide) rfl rfl

theorem registryStringToHive_default (h : Host) (hive : String)
    (h1 : ToUpper h.UnicodeToUpper hive ≠ "HKEY_LOCAL_MACHINE")
    (h2 : ToUpper h.UnicodeToUpper hive ≠ "HKEY_CURRENT_USER")
    (h3 : ToUpper h.UnicodeToUpper hive ≠ "HKEY_CLASSES_ROOT") :
    registryStringToHive h hive = LOCAL_MACHINE := by
  simp [registryStringToHive, h1, h2, h3]

theorem registryStringToHive_local_machine (h : Host) :
    registryStringToHive h "HKEY_LOCAL_MACHINE" = LOCAL_MACHINE := by
  have hu : ToUpper h.UnicodeToUpper "HKEY_LOCAL_MACHINE" = "HKEY_LOCAL_MACHINE" := rfl
  simp [registryStringToHive, hu]

theorem executeRegistryTest_status (h : Host) (t : RegistryTest) :
    (executeRegistryTest h t).1.Status = "pass" ∨ (executeRegistryTest h t).1.Status = "fail" := by
  rcases hopen : h.OpenKey (registryStringToHive h t.Hive) t.Key QUERY_VALUE with e | key
  · rw [executeRegistryTest_of_open_error h t e hopen]
    exact Or.inr rfl
  · rcases hread : h.GetStringValue key t.ValueName with e | v
    · rw [executeRegistryTest_of_read_error h t key e hopen hread]
      exact Or.inr rfl
    · rw [executeRegistryTest_of_value h t key v hopen hread]
      cases compareValues v t.ExpectedValue t.Operation <;> simp

theorem executeRegistryTest_status_of_hive (h : Host) (t : RegistryTest) (hive : String)
    (hk : registryStringToHive h hive = registryStringToHive h t.Hive) :
    (executeRegistryTest h { t with Hive := hive }).1.Status
      = (executeRegistryTest h t).1.Status := by
  rcases hopen : h.OpenKey (registryStringToHive h t.Hive) t.Key QUERY_VALUE with e | key
  · rw [executeRegistryTest_of_open_error h t e hopen,
      executeRegistryTest_of_open_error h { t with Hive := hive } e (by rw [hk]; exact hopen)]
  · rcases hread : h.GetStringValue key t.ValueName with e | v
    · rw [executeRegistryTest_of_read_error h t key e hopen hread,
        executeRegistryTest_of_read_error h { t with Hive := hive } key e
          (by rw [hk]; exact hopen) hread]
    · rw [executeRegistryTest_of_value h t key v hopen hread,
        executeRegistryTest_of_value h { t with Hive := hive } key v
          (by rw [hk]; exact hopen) hread]

/-- C10, as stated, fails: `HKEY_USERS` is none of the three recognised hive
names, the sample host has no key `Software\Test` under `HKEY_USERS`, and yet
the registry test of that hive is reported `pass`, from the value found under
`HKEY_LOCAL_MACHINE`. -/
theorem unknown_hive_counterexample :
    ¬ (ToUpper sampleHost.UnicodeToUpper "HKEY_USERS" = "HKEY_LOCAL_MACHINE"
        ∨ ToUpper sampleHost.UnicodeToUpper "HKEY_USERS" = "HKEY_CURRENT_USER"
        ∨ ToUpper sampleHost.UnicodeToUpper "HKEY_USERS" = "HKEY_CLASSES_ROOT")
    ∧ sampleHost.OpenKey USERS "Software\\Test" QUERY_VALUE = .error .ErrNotExist
    ∧ registryStringToHive sampleHost "HKEY_USERS" = LOCAL_MACHINE
    ∧ (executeRegistryTest sampleHost { e2eRegistryTest with Hive := "HKEY_USERS" }).1.Status
        = "pass"
    ∧ (executeRegistryTest sampleHost { e2eRegistryTest with Hive := "HKEY_USERS" }).1.Status
        ≠ "unknown" := by
  refine ⟨by decide, rfl, by decide, by decide, by decide⟩

/-- C10, amended: a hive string that is not, after upper-casing, one of
`HKEY_LOCAL_MACHINE`, `HKEY_CURRENT_USER`, `HKEY_CLASSES_ROOT` is mapped to
`HKEY_LOCAL_MACHINE`: the test gets the status the same test gets with hive
`HKEY_LOCAL_MACHINE`, which is `pass` or `fail`, never `unknown`. -/
theorem unknown_hive_falls_back (h : Host) (t : RegistryTest)
    (h1 : ToUpper h.UnicodeToUpper t.Hive ≠ "HKEY_LOCAL_MACHINE")
    (h2 : ToUpper h.UnicodeToUpper t.Hive ≠ "HKEY_CURRENT_USER")
    (h3 : ToUpper h.UnicodeToUpper t.Hive ≠ "HKEY_CLASSES_ROOT") :
    registryStringToHive h t.Hive = LOCAL_MACHINE
    ∧ (executeRegistryTest h t).1.Status
        = (executeRegistryTest h { t with Hive := "HKEY_LOCAL_MACHINE" }).1.Status
    ∧ ((executeRegistryTest h t).1.Status = "pass" ∨ (executeRegistryTest h t).1.Status = "fail")
    ∧ (executeRegistryTest h t).1.Status ≠ "unknown" := by
  have hd := registryStringToHive_default h t.Hive h1 h2 h3
  have hs := executeRegistryTest_status h t
  refine ⟨hd, ?_, hs, ?_⟩
  · rw [executeRegistryTest_status_of_hive h t "HKEY_LOCAL_MACHINE"
      ((registryStringToHive_local_machine h).trans hd.symm)]
  · rcases hs with hs | hs <;> rw [hs] <;> decide

/-- C10 amended, at hive `HKEY_USERS` on the sample host. -/
theorem unknown_hive_falls_back_witness :
    registryStringToHive sampleHost "HKEY_USERS" = LOCAL_MACHINE
    ∧ (executeRegistryTest sampleHost { e2eRegistryTest with Hive := "HKEY_USERS" }).1.Status
        = (executeRegistryTest sampleHost
            { e2eRegistryTest with Hive := "HKEY_LOCAL_MACHINE" }).1.Status
    ∧ ((executeRegistryTest sampleHost { e2eRegistryTest with Hive := "HKEY_USERS" }).1.Status
          = "pass"
        ∨ (executeRegistryTest sampleHost { e2eRegistryTest with Hive := "HKEY_USERS" }).1.Status
          = "fail")
    ∧ (executeRegistryTest sampleHost { e2eRegistryTest with Hive := "HKEY_USERS" }).1.Status
        ≠ "unknown" :=
  unknown_hive_falls_back sampleHost { e2eRegistryTest with Hive := "HKEY_USERS" }
    (by decide) (by decide) (by decide)

/-! ## The scan -/

/-- C1: on the sample host the end-to-end document decodes, its registry test
and its file test both pass when run by the executors, and yet `ScanFromXML`
returns the empty list of results: the extraction functions hand the
executors no test. -/
theorem endToEnd_scan_is_empty :
    sampleHost.Unmarshal e2eXml = .ok e2eDocument
    ∧ (executeRegistryTest sampleHost e2eRegistryTest).1.Status = "pass"
    ∧ (executeFileTest sampleHost e2eFileTest).1.Status = "pass"
    ∧ extractRegistryTests e2eDocument = []
    ∧ extractFileTests e2eDocument = []
    ∧ ScanFromXML sampleHost e2eXml = .ok [] := by
  have hd : sampleHost.Unmarshal e2eXml = .ok e2eDocument := by
    simp [sampleHost]
  exact ⟨hd, by decide, by decide, rfl, rfl, ScanFromXML_of_document _ _ _ hd⟩

/-! ## Criteria -/

/-- C2, as stated, fails: on the sample host test `oval:tst:1` passes and test
`oval:tst:3` fails; the AND root and the OR root over these two tests decode
to one and the same `Criteria` value, the list of the two test references;
hence no evaluation of the decoded criteria against these results, whatever it
computes, gives status `fail` for the AND root and status `pass` for the OR
root. -/
theorem criteria_counterexample :
    (sampleResults "oval:tst:1").map TestResult.Status = some "pass"
    ∧ (sampleResults "oval:tst:3").map TestResult.Status = some "fail"
    ∧ decodeCriteria (criteriaElement "AND")
        = { Criterion := [{ TestRef := "oval:tst:1" }, { TestRef := "oval:tst:3" }] }
    ∧ decodeCriteria (criteriaElement "OR")
        = { Criterion := [{ TestRef := "oval:tst:1" }, { TestRef := "oval:tst:3" }] }
    ∧ ¬ ∃ evaluate : Criteria → (String → Option TestResult) → String,
        evaluate (decodeCriteria (criteriaElement "AND")) sampleResults = "fail"
        ∧ evaluate (decodeCriteria (criteriaElement "OR")) sampleResults = "pass" := by
  refine ⟨by decide, by decide, by decide, by decide, ?_⟩
  rintro ⟨evaluate, hAnd, hOr⟩
  have hsame : decodeCriteria (criteriaElement "AND") = decodeCriteria (criteriaElement "OR") := by
    decide
  rw [hsame, hOr] at hAnd
  exact absurd hAnd (by decide)

/-- C2, amended: the criteria the code decodes record no operator. Two
criteria roots with the same children, whatever the operator and the other
attributes of each, decode to the same `Criteria` value, which is the list of
the test references of the criterion children and nothing more; so whatever is
evaluated from the decoded criteria and the test results gives an AND root and
an OR root over the same children the same definition status. -/
theorem criteria_operator_not_decoded (eAnd eOr : Element)
    (hchildren : eAnd.children = eOr.children) :
    decodeCriteria eAnd = decodeCriteria eOr
    ∧ (decodeCriteria eAnd).Criterion.map Criterion.TestRef
        = (eAnd.children.filter (fun c => c.name == "criterion")).map
            (fun c => attrField "test_ref" c.attrs)
    ∧ ∀ (evaluate : Criteria → (String → Option TestResult) → String)
        (results : String → Option TestResult),
        evaluate (decodeCriteria eAnd) results = evaluate (decodeCriteria eOr) results := by
  have hsame : decodeCriteria eAnd = decodeCriteria eOr := by
    simp [decodeCriteria, hchildren]
  refine ⟨hsame, ?_, ?_⟩
  · simp [decodeCriteria, decodeCriterion, List.map_map, Function.comp_def]
  · intro evaluate results
    rw [hsame]

/-- C2 amended, at the AND root and the OR root over tests `oval:tst:1` and
`oval:tst:3`. -/
theorem criteria_operator_not_decoded_witness :
    (criteriaElement "AND").children = (criteriaElement "OR").children
    ∧ decodeCriteria (criteriaElement "AND") = decodeCriteria (criteriaElement "OR")
    ∧ (decodeCriteria (criteriaElement "AND")).Criterion.map Criterion.TestRef
        = ["oval:tst:1", "oval:tst:3"]
    ∧ ∀ (evaluate : Criteria → (String → Option TestResult) → String)
        (results : String → Option TestResult),
        evaluate (decodeCriteria (criteriaElement "AND")) results
          = evaluate (decodeCriteria (criteriaElement "OR")) results :=
  have h := criteria_operator_not_decoded (criteriaElement "AND") (criteriaElement "OR") rfl
  ⟨rfl, h.1, h.2.1, h.2.2⟩

end Oval
